import Mathlib

/-!
Formal model of the cycling-results scraper (procyclingstats crawler).

This file gives a shallow embedding of the parts of the program that the
claims C1-C10 speak about, translated from the Python sources:

* `src/improved_async_scraper.py` - the canonical scraper variant
  (`make_request`, `_find_classification_table`,
  `_score_classification_table`, `init_database`, `save_results_data`,
  the header-based points extraction of `parse_results_table`);
* `src/async_scraper.py` - the legacy variant (the cell-scan loop and
  defaults of `parse_results_table`);
* `src/progress_tracker.py` - the crawl progress tracker.

Machine integers are modelled as `Nat`/`Int` (Python integers are unbounded),
decimal score and delay literals as `ℚ` (the Python code uses floats; every
theorem below stays away from knife-edge float-rounding values), Python
`None`-able values as `Option`, Python sets as `Finset`.
-/

/-! ### String helpers (Python `in`, `str.isdigit`, `int(...)`) -/

/-- Occurrence of a character pattern in a character list: the pattern is
a prefix of some suffix.  (Implemented structurally over the code-point
lists so that concrete instances evaluate inside the kernel.) -/
def listIsInfix (pat : List Char) : List Char → Bool
  | [] => pat.isEmpty
  | c :: rest => pat.isPrefixOf (c :: rest) || listIsInfix pat rest

/-- Python `pat in s` (substring containment over code points). -/
def strContains (s pat : String) : Bool :=
  listIsInfix pat.data s.data

/-- A nonempty all-decimal-digit string: on exactly these strings both
Python `s.isdigit()` is true and `int(s)` parses.  Python `isdigit` also
accepts non-decimal digit-class characters (superscripts such as `²`) on
which `int()` raises `ValueError`; that wider test and the error path are
modelled by `pyStrIsDigit` and `int_of_string?` below and matter for the
classification scorer.  (In the row parsers the same `int()` call sits
inside the enclosing try/except of `parse_results_table`, whose claims
here concern decimal inputs only.) -/
def isDigitStr (s : String) : Bool :=
  !s.data.isEmpty && s.data.all Char.isDigit

/-- Python `s.isdigit()`: nonempty, all characters of digit class.  The
digit class is the decimal digits plus the non-decimal digit characters;
the three Latin-1 superscripts stand in for the latter (the full Unicode
table is not needed: one inhabitant of the isdigit-but-not-int-parseable
class suffices to carry the scorer's error path). -/
def pyStrIsDigit (s : String) : Bool :=
  !s.data.isEmpty && s.data.all (fun c => c.isDigit || c == '¹' || c == '²' || c == '³')

/-- Python `int(s)` on a digit-class string: succeeds exactly on nonempty
all-decimal strings, raises `ValueError` (modelled as `none`) on
non-decimal digit characters such as `²`.  (Non-ASCII decimal digits,
which `int()` would also parse, do not occur in the inputs considered
here and are not modelled.) -/
def int_of_string? (s : String) : Option Nat :=
  if !s.data.isEmpty && s.data.all Char.isDigit then
    some (s.data.foldl (fun acc c => acc * 10 + (c.toNat - 48)) 0)
  else none

/-- The value of `int(s)` on a parseable digit string (always a `Nat`). -/
def strToNat (s : String) : Nat :=
  s.data.foldl (fun acc c => acc * 10 + (c.toNat - 48)) 0

/-- Python `s.lower()` over code points. -/
def strToLower (s : String) : String :=
  ⟨s.data.map Char.toLower⟩

/-- Python `s.upper()` over code points. -/
def strToUpper (s : String) : String :=
  ⟨s.data.map Char.toUpper⟩

/-! ### Progress tracker (`src/progress_tracker.py`)

`ScrapingProgress` keeps the fields of the Python dataclass that the
tracker's mutating operations read or write; `start_time` and the two
timestamp fields are wall-clock values not touched by any claim and are
not modelled. -/

structure ScrapingProgress where
  session_id : String
  completed_years : Finset Int
  failed_years : Finset Int
  completed_races : Finset String
  failed_races : Finset String
  total_races_processed : Nat
  total_stages_processed : Nat
  total_results_processed : Nat
deriving DecidableEq

/-- The mutating tracker operations of one session (other than
`reset_session`, which the claims explicitly exclude). -/
inductive TrackerOp where
  | mark_year_completed (year : Int)
  | mark_year_failed (year : Int)
  | mark_race_completed (race_url : String) (stages_count results_count : Nat)
  | mark_race_failed (race_url : String)
deriving DecidableEq

/-- One tracker operation, as implemented in `progress_tracker.py`:
`mark_year_completed` adds to `completed_years` and *discards* the year
from `failed_years`; `mark_race_completed` does the same for races and
bumps the aggregate counters; the `mark_*_failed` operations only add to
the failed set. -/
def applyOp (p : ScrapingProgress) : TrackerOp → ScrapingProgress
  | .mark_year_completed y =>
      { p with completed_years := insert y p.completed_years
               failed_years := p.failed_years.erase y }
  | .mark_year_failed y =>
      { p with failed_years := insert y p.failed_years }
  | .mark_race_completed u s r =>
      { p with completed_races := insert u p.completed_races
               failed_races := p.failed_races.erase u
               total_races_processed := p.total_races_processed + 1
               total_stages_processed := p.total_stages_processed + s
               total_results_processed := p.total_results_processed + r }
  | .mark_race_failed u =>
      { p with failed_races := insert u p.failed_races }

/-- A session's history of mutating operations, applied in order. -/
def applyOps (p : ScrapingProgress) (ops : List TrackerOp) : ScrapingProgress :=
  ops.foldl applyOp p

/-- Model of `ProgressTracker.get_remaining_years`: with no active session the target
list is returned unchanged; otherwise the target years not in the completed
set and not in the failed set, in target order. -/
def get_remaining_years (p : Option ScrapingProgress) (target_years : List Int) : List Int :=
  match p with
  | none => target_years
  | some pr =>
      target_years.filter
        (fun y => decide (y ∉ pr.completed_years ∧ y ∉ pr.failed_years))

/-- Model of `ProgressTracker.should_skip_year`: true iff the year is in the
completed set of the active session. -/
def should_skip_year (p : Option ScrapingProgress) (year : Int) : Bool :=
  match p with
  | none => false
  | some pr => decide (year ∈ pr.completed_years)

/-! ### Fetch client (`improved_async_scraper.make_request`)

The retry loop `for attempt in range(max_retries + 1)` is modelled with the
number of remaining loop iterations as structural fuel; the environment is a
function from the attempt number to that attempt's outcome.  The semaphore
and the statistics counters do not influence control flow and are omitted;
the returned `FetchTrace` records how many attempts were performed, the
sleeps issued (in order, in seconds as `ℚ`), and the final result. -/

inductive HttpOutcome where
  | ok (body : String)
  | notFound
  | tooManyRequests
  | httpError (code : Nat)
  | timedOut
  | connectionError
deriving DecidableEq

/-- Outcomes that `make_request` retries via the generic (non-429) paths:
unexpected HTTP status, `asyncio.TimeoutError`, other exceptions. -/
def isOtherRetryable : HttpOutcome → Bool
  | .httpError _ => true
  | .timedOut => true
  | .connectionError => true
  | _ => false

structure FetchTrace where
  attempts : Nat
  sleeps : List ℚ
  result : Option String
deriving DecidableEq

/-- The body of `make_request`'s retry loop (improved variant, lines
585-627): HTTP 200 returns the body; HTTP 404 returns `None` immediately;
HTTP 429 sleeps `(attempt + 1) * retry_delay` and continues (even on the
last iteration, after which the loop falls through to the final
`return None`); any other status, a timeout, or another exception sleeps
the constant `retry_delay` and continues when `attempt < max_retries`,
else returns `None`. -/
def make_request_loop (retry_delay : ℚ) (max_retries : Nat)
    (out : Nat → HttpOutcome) : Nat → Nat → FetchTrace
  | _, 0 => ⟨0, [], none⟩
  | attempt, fuel + 1 =>
    match out attempt with
    | .ok body => ⟨1, [], some body⟩
    | .notFound => ⟨1, [], none⟩
    | .tooManyRequests =>
        let rest := make_request_loop retry_delay max_retries out (attempt + 1) fuel
        ⟨1 + rest.attempts, ((attempt : ℚ) + 1) * retry_delay :: rest.sleeps, rest.result⟩
    | .httpError _ =>
        if attempt < max_retries then
          let rest := make_request_loop retry_delay max_retries out (attempt + 1) fuel
          ⟨1 + rest.attempts, retry_delay :: rest.sleeps, rest.result⟩
        else ⟨1, [], none⟩
    | .timedOut =>
        if attempt < max_retries then
          let rest := make_request_loop retry_delay max_retries out (attempt + 1) fuel
          ⟨1 + rest.attempts, retry_delay :: rest.sleeps, rest.result⟩
        else ⟨1, [], none⟩
    | .connectionError =>
        if attempt < max_retries then
          let rest := make_request_loop retry_delay max_retries out (attempt + 1) fuel
          ⟨1 + rest.attempts, retry_delay :: rest.sleeps, rest.result⟩
        else ⟨1, [], none⟩

/-- Model of `make_request(url, max_retries)`: run the loop from attempt 0 with
`max_retries + 1` iterations available. -/
def make_request (retry_delay : ℚ) (max_retries : Nat)
    (out : Nat → HttpOutcome) : FetchTrace :=
  make_request_loop retry_delay max_retries out 0 (max_retries + 1)

/-! ### Classification table scoring and selection
(`improved_async_scraper._score_classification_table`, lines 430-492, and
`improved_async_scraper._find_classification_table`, lines 391-428)

A candidate table is modelled by the data the scorer reads from it:
`thead` is the stripped cell texts of the table's `<thead>` header cells
when a `<thead>` element exists, and `trs` is the stripped cell texts
(`th`/`td`) of every `<tr>` element of the table in document order
(including any rows inside the `<thead>`, as BeautifulSoup's recursive
`find_all('tr')` returns them). -/

structure ResultsTable where
  thead : Option (List String)
  trs : List (List String)
deriving DecidableEq

/-- Header cells used for scoring: the `<thead>` cells if a `<thead>`
exists, else the first `<tr>`'s cells, else none (Python lines 436-442). -/
def header_cells_of (t : ResultsTable) : List String :=
  match t.thead with
  | some cs => cs
  | none => t.trs.headD []

/-- Score contribution of one sampled data row (Python lines 476-490):
`+0.1` when the first cell is a digit string whose value is at most 10,
and, for GC, a further `+0.1` when some cell contains a colon together
with a plus sign or the letter h (the inner loop breaks after the first
such cell, so the row contributes this at most once). -/
def row_score (classification_type : Option String) (cells : List String) : ℚ :=
  if cells.isEmpty then 0
  else
    (if isDigitStr (cells.headD "") && decide (strToNat (cells.headD "") ≤ 10)
     then 1/10 else 0)
    + (if classification_type == some "gc"
          && cells.any (fun c => strContains c ":" && (strContains c "+" || strContains c "h"))
       then 1/10 else 0)

/-- Rank-header contribution (Python lines 448-450): `+0.3` when some
lowercased header contains `rnk` or `rank`. -/
def rank_header_score (headers : List String) : ℚ :=
  if headers.any (fun h => strContains h "rnk" || strContains h "rank") then 3/10 else 0

/-- Type-specific header contribution (Python lines 452-472).  For GC:
`+0.2` for a time header, `+0.4` for a previous-rank header, `+0.4` for the
rank-change arrow glyphs in the joined header text, `+0.3` for a
time-won/time-lost header, and `-0.5` for an exact `gc` column (the
stage-result giveaway).  For points/KOM: `+0.4` for a points header. -/
def type_score (classification_type : Option String)
    (headers : List String) (header_text : String) : ℚ :=
  match classification_type with
  | some "gc" =>
      (if headers.any (fun h => strContains h "time") then 2/10 else 0)
      + (if headers.any (fun h => strContains h "prev") then 4/10 else 0)
      + (if strContains header_text "▼▲" || strContains header_text "▲"
            || strContains header_text "▼" then 4/10 else 0)
      + (if headers.any (fun h => strContains h "time won" || strContains h "time lost")
         then 3/10 else 0)
      - (if headers.any (fun h => strToLower h == "gc") then 5/10 else 0)
  | some "points" =>
      if headers.any (fun h => strContains h "pnt" || strContains h "point") then 4/10 else 0
  | some "kom" =>
      if headers.any (fun h => strContains h "pnt" || strContains h "point") then 4/10 else 0
  | _ => 0

/-- Python `min(a, b)` on rationals, kept as an explicit conditional so
that concrete scores evaluate inside the kernel. -/
def pymin (a b : ℚ) : ℚ :=
  if a ≤ b then a else b

/-- Model of `_score_classification_table`: weighted score of a candidate table for
a target classification type, capped above at 1.  Headers are lowercased
before matching, exactly as in the source. -/
def score_classification_table (t : ResultsTable) (classification_type : Option String) : ℚ :=
  let headers := (header_cells_of t).map strToLower
  let header_text := String.intercalate " " headers
  pymin (rank_header_score headers + type_score classification_type headers header_text
        + (((t.trs.drop 1).take 3).map (row_score classification_type)).sum) 1

/-- The scan loop of `_find_classification_table` (lines 410-417): index of
the first table whose score strictly exceeds the 0.7 confidence threshold. -/
def find_first_confident (classification_type : Option String) :
    List ResultsTable → Option Nat
  | [] => none
  | t :: rest =>
      if (7 : ℚ)/10 < score_classification_table t classification_type then some 0
      else (find_first_confident classification_type rest).map (· + 1)

/-- Model of `_find_classification_table`, as the index of the selected table among
the document's results-class tables (the source returns the table object
`all_tables[i]` itself): the first table scoring above 0.7, else table
index 1 when at least two tables exist, else table index 0 when one
exists, else no table (lines 410-428). -/
def find_classification_table_idx (tables : List ResultsTable)
    (classification_type : Option String) : Option Nat :=
  match find_first_confident classification_type tables with
  | some i => some i
  | none =>
      if 2 ≤ tables.length then some 1
      else if 1 ≤ tables.length then some 0
      else none

/-- Classification type derived from the classification URL
(lines 397-405): first match among the four substring tests wins. -/
def classification_type_of (classification_url : String) : Option String :=
  if strContains classification_url "/gc" then some "gc"
  else if strContains classification_url "/points" then some "points"
  else if strContains classification_url "/kom" then some "kom"
  else if strContains classification_url "/youth" then some "youth"
  else none

/-- Model of `_find_classification_table` end to end: derive the type from the URL,
then select a table index. -/
def find_classification_table (tables : List ResultsTable)
    (classification_url : String) : Option Nat :=
  find_classification_table_idx tables (classification_type_of classification_url)

/-! ### The scorer's `ValueError` path

Line 481 of `_score_classification_table` runs
`first_cell.isdigit() and int(first_cell) <= 10`: Python `isdigit` also
accepts non-decimal digit characters (e.g. `²`), on which the unguarded
`int()` then raises `ValueError`; no try/except exists inside
`_score_classification_table` or `_find_classification_table`, so the
exception propagates out of the selector.  The `*_checked` functions below
are the same scorer and selector with that error path made explicit
(`none`/`Except.error` = raised `ValueError`); `row_score`,
`score_classification_table` and `find_classification_table_idx` above are
their restrictions to inputs that cannot raise, and the agreement is
proved in `score_classification_table_checked_agrees` below. -/

/-- `row_score` with the `int()` error path: the first cell's digit test
uses Python `isdigit`, and a digit-class first cell that `int()` cannot
parse raises (`none`).  The row's GC time-gap check cannot raise. -/
def row_score_checked (classification_type : Option String) (cells : List String) : Option ℚ :=
  if cells.isEmpty then some 0
  else
    let first := cells.headD ""
    let digit_sc : Option ℚ :=
      if pyStrIsDigit first then
        match int_of_string? first with
        | none => none
        | some v => some (if v ≤ 10 then 1/10 else 0)
      else some 0
    match digit_sc with
    | none => none
    | some d =>
        some (d + (if classification_type == some "gc"
            && cells.any (fun c => strContains c ":" && (strContains c "+" || strContains c "h"))
          then 1/10 else 0))

/-- The sampled data rows scored in order; the first raising row aborts
the scorer, as in the Python loop. -/
def sum_row_scores_checked (classification_type : Option String) :
    List (List String) → Option ℚ
  | [] => some 0
  | row :: rest =>
      match row_score_checked classification_type row with
      | none => none
      | some v => (sum_row_scores_checked classification_type rest).map (v + ·)

/-- `_score_classification_table` with the error path: the header scores
cannot raise; a raise in the data-row loop propagates. -/
def score_classification_table_checked (t : ResultsTable)
    (classification_type : Option String) : Option ℚ :=
  let headers := (header_cells_of t).map strToLower
  let header_text := String.intercalate " " headers
  match sum_row_scores_checked classification_type ((t.trs.drop 1).take 3) with
  | none => none
  | some rows_sc =>
      some (pymin (rank_header_score headers
        + type_score classification_type headers header_text + rows_sc) 1)

/-- The confidence scan with the error path: a raising table aborts the
whole selector. -/
def find_first_confident_checked (classification_type : Option String) :
    List ResultsTable → Except Unit (Option Nat)
  | [] => .ok none
  | t :: rest =>
      match score_classification_table_checked t classification_type with
      | none => .error ()
      | some sc =>
          if (7 : ℚ)/10 < sc then .ok (some 0)
          else (find_first_confident_checked classification_type rest).map (Option.map (· + 1))

/-- `_find_classification_table` with the error path: an uncaught
`ValueError` from the scorer propagates (`Except.error`); otherwise the
confident index or the positional fallback is returned as before. -/
def find_classification_table_checked (tables : List ResultsTable)
    (classification_type : Option String) : Except Unit (Option Nat) :=
  match find_first_confident_checked classification_type tables with
  | .error e => .error e
  | .ok (some i) => .ok (some i)
  | .ok none =>
      .ok (if 2 ≤ tables.length then some 1
           else if 1 ≤ tables.length then some 0
           else none)

/-! ### Row parsing, legacy variant (`async_scraper.parse_results_table`)

A table cell is modelled by what the scan loop (lines 1299-1369) reads from
it: its stripped text, its class attribute list, and the text of a
`span.hide` child if one exists.  The enclosing per-row code extracts the
rider/team links, specialty, age, bib and jersey fields, which are written
to dictionary keys disjoint from the ones below and are omitted here; a row
is only appended to the output when a rider link was resolved, which does
not change the fields computed for the rows that are returned. -/

structure HtmlCell where
  text : String
  classes : List String
  hide_text : Option String
deriving DecidableEq

/-- The dictionary keys of one parsed result row that the scan loop and the
trailing `setdefault` calls touch.  `position` is written together with
`rank` (lines 1246-1251). -/
structure RowRecord where
  rank : Option Nat
  position : Option Nat
  time : Option String
  time_gap : Option String
  uci_points : Option Nat
  pcs_points : Option Nat
  status : Option String
deriving DecidableEq

/-- One iteration of the scan loop over a row's cells
(`async_scraper.py` lines 1299-1369), an if/elif chain:
1. time-like cell (class `time`, or a colon together with a digit):
   assign `time` (preferring the hidden span) and possibly `time_gap`;
2. cell of class `uci_pnt` with a positive digit text: `uci_points`;
3. cell of class `pnt` with a positive digit text: `pcs_points`;
4. any other positive digit text not equal to the rank: on a primary table
   `pcs_points` when unassigned and the value is in [10,500], else
   `uci_points` when `pcs_points` is already assigned, `uci_points` is not,
   and the value exceeds 500; on a secondary table always `uci_points`;
5. a status token (`DNF`/`DNS`/`DSQ`/`OTL`, case-insensitive): `status`. -/
def scan_cell (secondary : Bool) (r : RowRecord) (c : HtmlCell) : RowRecord :=
  let text := c.text
  if c.classes.contains "time" || (strContains text ":" && text.data.any Char.isDigit) then
    let r1 :=
      match c.hide_text with
      | some ht => if strContains ht ":" then { r with time := some ht } else r
      | none =>
          if strContains text ":" then
            let parts := text.splitOn ":"
            if 2 ≤ parts.length then
              if parts.length = 2 && isDigitStr (parts.headD "") && isDigitStr (parts.getD 1 "") then
                if strToNat (parts.headD "") < 10 && strToNat (parts.getD 1 "") < 60 then
                  { r with time := some ((parts.headD "") ++ ":" ++ (parts.getD 1 "") ++ ":00") }
                else { r with time := some text }
              else { r with time := some text }
            else r
          else r
    if r1.time_gap = none then
      match r1.position with
      | some 1 => { r1 with time_gap := some "+0:00" }
      | some p =>
          if 1 < p then
            if strContains text ":" && (text.splitOn ":").length == 2 then
              let parts := text.splitOn ":"
              if isDigitStr (parts.headD "") && isDigitStr (parts.getD 1 "")
                  && (parts.headD "").length ≤ 2 && strToNat (parts.headD "") < 60 then
                if !(text.startsWith "+") then { r1 with time_gap := some ("+" ++ text) }
                else r1
              else r1
            else r1
          else r1
      | none => r1
    else r1
  else if c.classes.contains "uci_pnt" && isDigitStr text && decide (0 < strToNat text) then
    { r with uci_points := some (strToNat text) }
  else if c.classes.contains "pnt" && isDigitStr text && decide (0 < strToNat text) then
    { r with pcs_points := some (strToNat text) }
  else if isDigitStr text && decide (0 < strToNat text) then
    -- Python compares `int(text) != result.get('rank')`; a `None` rank
    -- compares unequal to every integer.
    if r.rank ≠ some (strToNat text) then
      if !secondary then
        if r.pcs_points = none then
          if 10 ≤ strToNat text ∧ strToNat text ≤ 500 then
            { r with pcs_points := some (strToNat text) }
          else r
        else if r.uci_points = none ∧ 500 < strToNat text then
          { r with uci_points := some (strToNat text) }
        else r
      else { r with uci_points := some (strToNat text) }
    else r
  else if ["DNF", "DNS", "DSQ", "OTL"].contains (strToUpper text) then
    { r with status := some (strToUpper text) }
  else r

/-- Rank extraction from the first cell (lines 1242-1251): the integer
value when the text is all digits, else `None`. -/
def initial_row_record (cells : List HtmlCell) : RowRecord :=
  let rank0 : Option Nat :=
    match cells.head? with
    | some c0 => if isDigitStr c0.text then some (strToNat c0.text) else none
    | none => none
  ⟨rank0, rank0, none, none, none, none, none⟩

/-- The scan loop over all of a row's cells (the rank cell included, as in
the source, where the `!= rank` guard protects it). -/
def scan_row (secondary : Bool) (cells : List HtmlCell) : RowRecord :=
  cells.foldl (scan_cell secondary) (initial_row_record cells)

/-- The trailing `setdefault` calls (lines 1371-1374): an unmatched status
becomes `FINISHED`, unassigned points become 0. -/
def apply_defaults (r : RowRecord) : RowRecord :=
  { r with status := some (r.status.getD "FINISHED")
           uci_points := some (r.uci_points.getD 0)
           pcs_points := some (r.pcs_points.getD 0) }

/-- Per-row field computation of `async_scraper.parse_results_table`. -/
def parse_result_row (secondary : Bool) (cells : List HtmlCell) : RowRecord :=
  apply_defaults (scan_row secondary cells)

/-! ### Row parsing, improved variant: points extraction
(`improved_async_scraper.parse_results_table`, lines 1283-1341)

The improved parser initializes both points fields to `None`, identifies
the UCI/PCS columns from the header texts, falls back to fixed positions,
and leaves a field `None` when neither applies.  It never writes a
`status` key at all.  `header_cells` is the stripped texts of the header
row's cells (`thead`, else the first `tr`), `none` when the row's parent
table or header row could not be found; `cells` is the row's cell texts. -/

def extract_points_improved (header_cells : Option (List String))
    (cells : List String) (secondary : Bool) : Option Nat × Option Nat :=
  -- Column identification (lines 1294-1305): last header containing
  -- `uci` wins for the UCI column, else last containing `pcs` for PCS.
  let cols : Option Nat × Option Nat :=
    match header_cells with
    | none => (none, none)
    | some hs =>
        hs.enum.foldl
          (fun (p : Option Nat × Option Nat) (ic : Nat × String) =>
            let h := strToLower ic.2
            if strContains h "uci" then (some ic.1, p.2)
            else if strContains h "pcs" then (p.1, some ic.1)
            else p)
          (none, none)
  -- Header-based extraction (lines 1307-1322).
  let uci1 : Option Nat :=
    match cols.1 with
    | some i =>
        if i < cells.length then
          let t := cells.getD i ""
          if isDigitStr t then some (strToNat t) else none
        else none
    | none => none
  let pcs1 : Option Nat :=
    match cols.2 with
    | some i =>
        if i < cells.length then
          let t := cells.getD i ""
          if isDigitStr t then some (strToNat t) else none
        else none
    | none => none
  -- Fixed-position fallback (lines 1324-1341).
  let uci2 : Option Nat :=
    match uci1 with
    | some v => some v
    | none =>
        if 4 < cells.length then
          let t := cells.getD (if !secondary then 4 else 3) ""
          if isDigitStr t then some (strToNat t) else none
        else none
  let pcs2 : Option Nat :=
    match pcs1 with
    | some v => some v
    | none =>
        if 5 < cells.length then
          let t := cells.getD (if !secondary then 5 else 4) ""
          if isDigitStr t then some (strToNat t) else none
        else none
  (uci2, pcs2)

/-! ### Persistence layer
(`improved_async_scraper.init_database`, lines 494-583, and
`improved_async_scraper.save_results_data`, lines 958-1035)

The `results` table is modelled as a list of rows in insertion order.
`init_database` creates, among others, the unique index
`idx_results_unique ON results(stage_id, rider_name, rank, time, status)`;
`INSERT OR IGNORE` drops a new row that conflicts with a stored row under
that index.  SQLite treats all NULL values in a unique index as distinct
from every value including other NULLs, so two rows conflict only when
every indexed column is non-NULL on both sides and equal
(`unique_index_conflict` below); a row with a NULL in any indexed column
never conflicts and is always inserted. -/

/-- One parsed result dictionary as consumed by `save_results_data`; every
`.get(...)` access may yield `None`, so every field is optional. -/
structure ParsedResult where
  rider_name : Option String
  rider_url : Option String
  team_name : Option String
  team_url : Option String
  rank : Option Nat
  status : Option String
  time : Option String
  uci_points : Option Nat
  pcs_points : Option Nat
  age : Option Nat
deriving DecidableEq

/-- A stored row of the `results` table (the inserted columns of the
`INSERT OR IGNORE` statement; `id` and `created_at` are database-generated
and not modelled). -/
structure DBResultRow where
  stage_id : Nat
  rider_name : Option String
  rider_url : Option String
  team_name : Option String
  team_url : Option String
  rank : Option Nat
  status : Option String
  time : Option String
  uci_points : Option Nat
  pcs_points : Option Nat
  age : Option Nat
  gc_rank : Option Nat
  gc_uci_points : Option Nat
  points_rank : Option Nat
  points_uci_points : Option Nat
  kom_rank : Option Nat
  kom_uci_points : Option Nat
  youth_rank : Option Nat
  youth_uci_points : Option Nat
deriving DecidableEq

/-- The per-stage payload passed to `save_results_data`: the primary
result list and the four classification lists. -/
structure StageData where
  results : List ParsedResult
  gc : List ParsedResult
  points : List ParsedResult
  kom : List ParsedResult
  youth : List ParsedResult
deriving DecidableEq

/-- The two configuration flags `save_results_data` consults
(`ScrapingConfig.overwrite_existing_data` and
`ScrapingConfig.overwrite_results`, both `False` by default). -/
structure SaveConfig where
  overwrite_existing_data : Bool
  overwrite_results : Bool
deriving DecidableEq

/-- Equality of one nullable indexed column under SQLite unique-index
semantics: NULL conflicts with nothing, not even another NULL. -/
def sql_col_eq {α : Type} [DecidableEq α] : Option α → Option α → Bool
  | some a, some b => a == b
  | _, _ => false

/-- Conflict under `idx_results_unique`: every indexed column pair
(`stage_id` is always present; the other four are nullable) is non-NULL
and equal. -/
def unique_index_conflict (x y : DBResultRow) : Bool :=
  x.stage_id == y.stage_id
    && sql_col_eq x.rider_name y.rider_name
    && sql_col_eq x.rank y.rank
    && sql_col_eq x.time y.time
    && sql_col_eq x.status y.status

/-- Model of `INSERT OR IGNORE`: append the row unless some stored row conflicts
with it under the unique index (NULL key columns never conflict). -/
def insert_or_ignore (db : List DBResultRow) (row : DBResultRow) : List DBResultRow :=
  if db.any (fun x => unique_index_conflict x row) then db else db ++ [row]

/-- Python `{r.get('rider_url'): r for r in l}.get(u, {})`: dictionary
comprehension keyed by rider URL (later entries overwrite earlier ones),
then lookup; `none` plays the role of the empty-dict default, whose
`.get` of any field is `None`. -/
def lookup_by_url (l : List ParsedResult) (u : Option String) : Option ParsedResult :=
  (l.filter (fun r => r.rider_url == u)).getLast?

/-- The row built for one primary result (lines 1002-1029), merging the
classification data found under the same rider URL. -/
def mk_row (stage_id : Nat) (sd : StageData) (result : ParsedResult) : DBResultRow :=
  let rider_url := result.rider_url
  let gc_data := lookup_by_url sd.gc rider_url
  let points_data := lookup_by_url sd.points rider_url
  let kom_data := lookup_by_url sd.kom rider_url
  let youth_data := lookup_by_url sd.youth rider_url
  { stage_id := stage_id
    rider_name := result.rider_name
    rider_url := rider_url
    team_name := result.team_name
    team_url := result.team_url
    rank := result.rank
    status := result.status
    time := result.time
    uci_points := result.uci_points
    pcs_points := result.pcs_points
    age := result.age
    gc_rank := gc_data.bind (·.rank)
    gc_uci_points := gc_data.bind (·.uci_points)
    points_rank := points_data.bind (·.rank)
    points_uci_points := points_data.bind (·.uci_points)
    kom_rank := kom_data.bind (·.rank)
    kom_uci_points := kom_data.bind (·.uci_points)
    youth_rank := youth_data.bind (·.rank)
    youth_uci_points := youth_data.bind (·.uci_points) }

/-- Model of `save_results_data`, as the transformation of the committed `results`
table: when rows for the stage already exist and neither overwrite flag is
set, the call is a no-op; with an overwrite flag set, existing rows of the
stage are deleted and the new ones inserted; otherwise the new rows are
inserted one by one with `INSERT OR IGNORE`.  The `if not results: return`
on line 988 fires before the final `commit`, so when the result list is
empty the connection closes without committing and the table is unchanged
(the uncommitted `DELETE` of the overwrite branch is rolled back). -/
def save_results_data (cfg : SaveConfig) (stage_id : Nat) (sd : StageData)
    (db : List DBResultRow) : List DBResultRow :=
  let existing := db.countP (fun r => r.stage_id == stage_id)
  if 0 < existing then
    if !(cfg.overwrite_existing_data || cfg.overwrite_results) then db
    else if sd.results.isEmpty then db
    else
      (sd.results.map (mk_row stage_id sd)).foldl insert_or_ignore
        (db.filter (fun r => !(r.stage_id == stage_id)))
  else if sd.results.isEmpty then db
  else (sd.results.map (mk_row stage_id sd)).foldl insert_or_ignore db

/-! ## Claims -/

/-- C2: for every URL environment and every retry budget, an attempt of
`make_request` that receives HTTP 404 makes the fetch return a terminal
failure (`None`, no body) immediately: that attempt is the only attempt
performed from that point on, no retry sleep is issued, and in particular
a call whose first attempt hits 404 performs exactly one attempt. -/
theorem make_request_404_terminal (d : ℚ) (mr : Nat) (out : Nat → HttpOutcome)
    (k : Nat) (hk : k ≤ mr) (h404 : out k = HttpOutcome.notFound) :
    make_request_loop d mr out k (mr + 1 - k) = ⟨1, [], none⟩ ∧
    (out 0 = HttpOutcome.notFound → make_request d mr out = ⟨1, [], none⟩) := by
  constructor
  · obtain ⟨f, hf⟩ : ∃ f, mr + 1 - k = f + 1 := ⟨mr - k, by omega⟩
    rw [hf]
    simp [make_request_loop, h404]
  · intro h0
    simp [make_request, make_request_loop, h0]

theorem make_request_404_terminal_witness :
    make_request_loop 1 3 (fun _ => HttpOutcome.notFound) 0 (3 + 1 - 0) = ⟨1, [], none⟩ ∧
    make_request 1 3 (fun _ => HttpOutcome.notFound) = ⟨1, [], none⟩ :=
  ⟨(make_request_404_terminal 1 3 (fun _ => HttpOutcome.notFound) 0 (by decide) rfl).1,
   (make_request_404_terminal 1 3 (fun _ => HttpOutcome.notFound) 0 (by decide) rfl).2 rfl⟩

/-- C3 counterexample: with `retry_delay = 1` and `max_retries = 2`, a call
whose every attempt receives HTTP 500 sleeps `[1, 1]`, whereas
`base_retry_delay * 2^attempt` would demand a second delay of
`1 * 2^1 = 2`: the backoff is not exponential. -/
theorem make_request_backoff_counterexample :
    (make_request 1 2 (fun _ => HttpOutcome.httpError 500)).sleeps = [1, 1] ∧
    ¬ ((1 : ℚ) = 1 * 2 ^ 1) := by
  constructor
  · rfl
  · norm_num

/-- C3 amended: the delay slept after a retryable attempt `k` is
`(k + 1) * retry_delay` (linear, not exponential) when the attempt hit
HTTP 429, and the constant `retry_delay` when it hit any other retryable
outcome (another unexpected status, a timeout, or a connection error)
with retries remaining. -/
theorem make_request_retry_delays (d : ℚ) (mr : Nat) (out : Nat → HttpOutcome)
    (k fuel : Nat) :
    (out k = HttpOutcome.tooManyRequests →
      (make_request_loop d mr out k (fuel + 1)).sleeps.head? = some (((k : ℚ) + 1) * d)) ∧
    (k < mr → isOtherRetryable (out k) = true →
      (make_request_loop d mr out k (fuel + 1)).sleeps.head? = some d) := by
  constructor
  · intro h
    simp [make_request_loop, h]
  · intro hk h
    cases hout : out k <;> simp [isOtherRetryable, hout] at h <;>
      simp [make_request_loop, hout, hk]

theorem make_request_retry_delays_witness :
    (make_request_loop 1 3 (fun _ => HttpOutcome.tooManyRequests) 0 (3 + 1)).sleeps.head?
        = some ((((0 : Nat) : ℚ) + 1) * 1) ∧
    (make_request_loop 1 3 (fun _ => HttpOutcome.timedOut) 1 (2 + 1)).sleeps.head? = some 1 :=
  ⟨(make_request_retry_delays 1 3 (fun _ => HttpOutcome.tooManyRequests) 0 3).1 rfl,
   (make_request_retry_delays 1 3 (fun _ => HttpOutcome.timedOut) 1 2).2 (by decide) rfl⟩

/-- C9: `get_remaining_years` returns exactly the target years lying in
neither the completed nor the failed set, in target order (it is a sublist
of the target list); in particular a session with only year 2020 completed
maps the targets `[2019, 2020, 2021]` to `[2019, 2021]`. -/
theorem get_remaining_years_spec (pr : ScrapingProgress) (target_years : List Int) :
    (get_remaining_years (some pr) target_years).Sublist target_years ∧
    (∀ y, y ∈ get_remaining_years (some pr) target_years ↔
        y ∈ target_years ∧ y ∉ pr.completed_years ∧ y ∉ pr.failed_years) ∧
    get_remaining_years (some ⟨"resume", {2020}, ∅, ∅, ∅, 0, 0, 0⟩)
        [2019, 2020, 2021] = [2019, 2021] := by
  refine ⟨List.filter_sublist _, ?_, by decide⟩
  intro y
  simp [get_remaining_years, List.mem_filter]

/-- C10 counterexample: marking year 2020 failed and then marking the same
year completed removes it from the failed set, so FAILED is not terminal
under the tracker operations. -/
theorem failed_state_not_terminal :
    (2020 : Int) ∈ (applyOp ⟨"s", ∅, ∅, ∅, ∅, 0, 0, 0⟩
        (TrackerOp.mark_year_failed 2020)).failed_years ∧
    (2020 : Int) ∉ (applyOp (applyOp ⟨"s", ∅, ∅, ∅, ∅, 0, 0, 0⟩
        (TrackerOp.mark_year_failed 2020))
        (TrackerOp.mark_year_completed 2020)).failed_years := by
  decide

/-- C10 amended: under any sequence of tracker operations (reset excluded),
a unit in the completed set stays completed forever; a unit in the failed
set stays failed unless the sequence contains a mark-completed operation
for that same unit, which moves it out of the failed set. -/
theorem tracker_terminal_states (p : ScrapingProgress) (ops : List TrackerOp)
    (y : Int) (u : String) :
    (y ∈ p.completed_years → y ∈ (applyOps p ops).completed_years) ∧
    (u ∈ p.completed_races → u ∈ (applyOps p ops).completed_races) ∧
    (y ∈ p.failed_years → (∀ op ∈ ops, op ≠ TrackerOp.mark_year_completed y) →
        y ∈ (applyOps p ops).failed_years) ∧
    (u ∈ p.failed_races →
        (∀ op ∈ ops, ∀ s r, op ≠ TrackerOp.mark_race_completed u s r) →
        u ∈ (applyOps p ops).failed_races) := by
  induction ops generalizing p with
  | nil => exact ⟨fun h => h, fun h => h, fun h _ => h, fun h _ => h⟩
  | cons op rest ih =>
    have hstep : applyOps p (op :: rest) = applyOps (applyOp p op) rest := rfl
    rw [hstep]
    refine ⟨?_, ?_, ?_, ?_⟩
    · intro hy
      apply (ih (applyOp p op)).1
      cases op with
      | mark_year_completed y' => exact Finset.mem_insert_of_mem hy
      | mark_year_failed y' => exact hy
      | mark_race_completed u' s r => exact hy
      | mark_race_failed u' => exact hy
    · intro hu
      apply (ih (applyOp p op)).2.1
      cases op with
      | mark_year_completed y' => exact hu
      | mark_year_failed y' => exact hu
      | mark_race_completed u' s r => exact Finset.mem_insert_of_mem hu
      | mark_race_failed u' => exact hu
    · intro hy hops
      apply (ih (applyOp p op)).2.2.1
      · cases op with
        | mark_year_completed y' =>
          have hne : y ≠ y' := by
            intro h
            exact hops _ (List.mem_cons_self _ _) (by rw [h])
          exact Finset.mem_erase.mpr ⟨hne, hy⟩
        | mark_year_failed y' => exact Finset.mem_insert_of_mem hy
        | mark_race_completed u' s r => exact hy
        | mark_race_failed u' => exact hy
      · intro op' hop'
        exact hops op' (List.mem_cons_of_mem _ hop')
    · intro hu hops
      apply (ih (applyOp p op)).2.2.2
      · cases op with
        | mark_year_completed y' => exact hu
        | mark_year_failed y' => exact hu
        | mark_race_completed u' s r =>
          have hne : u ≠ u' := by
            intro h
            exact hops _ (List.mem_cons_self _ _) s r (by rw [h])
          exact Finset.mem_erase.mpr ⟨hne, hu⟩
        | mark_race_failed u' => exact Finset.mem_insert_of_mem hu
      · intro op' hop'
        exact hops op' (List.mem_cons_of_mem _ hop')

theorem tracker_terminal_states_witness :
    (2019 : Int) ∈ (applyOps ⟨"s", {2019}, {2019}, {"b"}, {"b"}, 0, 0, 0⟩
        [TrackerOp.mark_year_failed 2019, TrackerOp.mark_race_failed "b",
         TrackerOp.mark_year_completed 2020]).completed_years ∧
    "b" ∈ (applyOps ⟨"s", {2019}, {2019}, {"b"}, {"b"}, 0, 0, 0⟩
        [TrackerOp.mark_year_failed 2019, TrackerOp.mark_race_failed "b",
         TrackerOp.mark_year_completed 2020]).completed_races ∧
    (2019 : Int) ∈ (applyOps ⟨"s", {2019}, {2019}, {"b"}, {"b"}, 0, 0, 0⟩
        [TrackerOp.mark_year_failed 2019, TrackerOp.mark_race_failed "b",
         TrackerOp.mark_year_completed 2020]).failed_years ∧
    "b" ∈ (applyOps ⟨"s", {2019}, {2019}, {"b"}, {"b"}, 0, 0, 0⟩
        [TrackerOp.mark_year_failed 2019, TrackerOp.mark_race_failed "b",
         TrackerOp.mark_year_completed 2020]).failed_races :=
  ⟨(tracker_terminal_states _ _ 2019 "b").1 (by decide),
   (tracker_terminal_states _ _ 2019 "b").2.1 (by decide),
   (tracker_terminal_states _ _ 2019 "b").2.2.1 (by decide) (by decide),
   (tracker_terminal_states _ _ 2019 "b").2.2.2 (by decide)
     (by intro op hop s r; fin_cases hop <;> simp)⟩

/-- The index returned by the confidence scan is always in range. -/
theorem find_first_confident_lt_length (ctype : Option String) :
    ∀ (tables : List ResultsTable) (i : Nat),
      find_first_confident ctype tables = some i → i < tables.length := by
  intro tables
  induction tables with
  | nil => intro i h; exact Option.noConfusion h
  | cons t rest ih =>
    intro i h
    simp only [find_first_confident] at h
    split at h
    · cases h
      simp
    · cases hr : find_first_confident ctype rest with
      | none => rw [hr] at h; simp at h
      | some j =>
        rw [hr] at h
        simp at h
        have := ih j hr
        simp
        omega

/-- Totality of the selector's value restriction: on the raise-free
domain, `_find_classification_table` selects a valid in-range table index
- the first confidently scoring table if any, else the positional
fallback - and never returns nothing.  (The raising path is handled by
`find_classification_table_checked_total` below, which reduces to this.) -/
theorem find_classification_table_total (tables : List ResultsTable)
    (ctype : Option String) (h : tables ≠ []) :
    ∃ i, find_classification_table_idx tables ctype = some i ∧ i < tables.length := by
  have hlen : 1 ≤ tables.length := by
    cases tables with
    | nil => exact absurd rfl h
    | cons t rest => simp
  cases hf : find_first_confident ctype tables with
  | some i =>
    exact ⟨i, by simp [find_classification_table_idx, hf],
      find_first_confident_lt_length ctype tables i hf⟩
  | none =>
    rcases Nat.lt_or_ge tables.length 2 with hlt | hge
    · refine ⟨0, ?_, by omega⟩
      simp only [find_classification_table_idx, hf]
      rw [if_neg (by omega), if_pos hlen]
    · refine ⟨1, ?_, by omega⟩
      simp only [find_classification_table_idx, hf]
      rw [if_pos hge]

/-- A table with no header row and no rows scores 0 for every target
classification type. -/
theorem score_table_empty (ctype : Option String) :
    score_classification_table ⟨none, []⟩ ctype = 0 := by
  have ht : type_score ctype [] "" = 0 := by
    unfold type_score
    split <;> simp +decide
  simp only [score_classification_table, header_cells_of, List.headD_nil, List.map_nil]
  rw [show String.intercalate " " ([] : List String) = "" from rfl, ht]
  norm_num [rank_header_score, pymin]

/-- C5 counterexample: a points-classification page with five
results-class tables, none of which scores above the 0.7 threshold, falls
back to table index 1, not to the per-type positional convention's
index 2. -/
theorem positional_fallback_counterexample :
    find_classification_table_idx (List.replicate 5 ⟨none, []⟩) (some "points") = some 1 ∧
    (1 : Nat) ≠ 2 := by
  have hs := score_table_empty (some "points")
  have hrep : List.replicate 5 (⟨none, []⟩ : ResultsTable) =
      [⟨none, []⟩, ⟨none, []⟩, ⟨none, []⟩, ⟨none, []⟩, ⟨none, []⟩] := rfl
  have hconf : find_first_confident (some "points")
      [(⟨none, []⟩ : ResultsTable), ⟨none, []⟩, ⟨none, []⟩, ⟨none, []⟩, ⟨none, []⟩] = none := by
    norm_num [find_first_confident, hs]
  refine ⟨?_, by decide⟩
  rw [hrep]
  simp [find_classification_table_idx, hconf]

/-- C5 amended: when no candidate table's score clears the 0.7 threshold,
the selected index is 1 whenever at least two tables exist and 0
otherwise, for every classification type alike (only the legacy variant's
jersey-page handler uses the per-type positional convention
stage=0/GC=1/points=2/KOM=3/youth=4); in particular a GC page with five
low-scoring tables still gets index 1, as the spec's scenario states. -/
theorem fallback_ignores_classification_type (tables : List ResultsTable)
    (ctype : Option String)
    (hall : ∀ t ∈ tables, score_classification_table t ctype ≤ 7/10)
    (hne : tables ≠ []) :
    find_classification_table_idx tables ctype =
      some (if 2 ≤ tables.length then 1 else 0) := by
  have hnone : ∀ (l : List ResultsTable),
      (∀ t ∈ l, score_classification_table t ctype ≤ 7/10) →
      find_first_confident ctype l = none := by
    intro l
    induction l with
    | nil => intro _; rfl
    | cons t rest ih =>
      intro hl
      have ht : ¬ (7 : ℚ)/10 < score_classification_table t ctype :=
        not_lt.mpr (hl t (by simp))
      have hr := ih (fun x hx => hl x (by simp [hx]))
      simp [find_first_confident, ht, hr]
  have h0 := hnone tables hall
  have hlen : 1 ≤ tables.length := by
    cases tables with
    | nil => exact absurd rfl hne
    | cons t rest => simp
  simp only [find_classification_table_idx, h0]
  rcases Nat.lt_or_ge tables.length 2 with hlt | hge
  · rw [if_neg (by omega), if_pos hlen, if_neg (by omega)]
  · rw [if_pos hge, if_pos hge]

theorem fallback_ignores_classification_type_witness :
    find_classification_table_idx (List.replicate 5 ⟨none, []⟩) (some "gc") =
      some (if 2 ≤ (List.replicate 5 (⟨none, []⟩ : ResultsTable)).length then 1 else 0) :=
  fallback_ignores_classification_type (List.replicate 5 ⟨none, []⟩) (some "gc")
    (by
      intro t ht
      rw [List.eq_of_mem_replicate ht, score_table_empty]
      norm_num)
    (by decide)

/-- C6 counterexample: a GC-target table whose only header is the exact
token `gc` scores `-0.5`, so the scorer's range is not contained in
[0, 1]: the GC penalty can make the score negative. -/
theorem score_negative_counterexample :
    score_classification_table ⟨some ["gc"], []⟩ (some "gc") = -(1/2) ∧
    ¬ (0 ≤ score_classification_table ⟨some ["gc"], []⟩ (some "gc")) := by
  have h : score_classification_table ⟨some ["gc"], []⟩ (some "gc") = -(1/2) := by
    simp only [score_classification_table, header_cells_of]
    rw [show (["gc"].map strToLower) = ["gc"] from rfl,
        show String.intercalate " " ["gc"] = "gc" from rfl]
    simp +decide [rank_header_score, type_score, pymin]
    norm_num
  exact ⟨h, by rw [h]; norm_num⟩

/-- C6 amended: the weighted score always lies in [-0.5, 1]: it is capped
above at 1 by the final `min`, and the only negative contribution is the
single -0.5 GC-column penalty, so it is never below -0.5 (but it can be
negative, contrary to the claimed [0, 1] range). -/
theorem score_classification_table_bounds (t : ResultsTable) (ctype : Option String) :
    -(1/2) ≤ score_classification_table t ctype ∧
    score_classification_table t ctype ≤ 1 := by
  have hrow : ∀ cells, 0 ≤ row_score ctype cells := by
    intro cells
    unfold row_score
    split
    · norm_num
    · split_ifs <;> norm_num
  have hrows : 0 ≤ (((t.trs.drop 1).take 3).map (row_score ctype)).sum := by
    apply List.sum_nonneg
    intro x hx
    simp only [List.mem_map] at hx
    obtain ⟨c, _, rfl⟩ := hx
    exact hrow c
  have hrank : 0 ≤ rank_header_score ((header_cells_of t).map strToLower) := by
    unfold rank_header_score
    split_ifs <;> norm_num
  have htype : -(1/2) ≤ type_score ctype ((header_cells_of t).map strToLower)
      (String.intercalate " " ((header_cells_of t).map strToLower)) := by
    unfold type_score
    split
    · split_ifs <;> norm_num
    · split_ifs <;> norm_num
    · split_ifs <;> norm_num
    · norm_num
  simp only [score_classification_table, pymin]
  constructor
  · split_ifs with hle
    · linarith
    · norm_num
  · split_ifs with hle
    · exact hle
    · norm_num

/-- C7 counterexample: the spec's own scenario fails on the code.  A
primary-table row with rank cell `"12"`, a rider cell, and an unlabeled
numeric cell `"850"` (no PCS points yet assigned) ends with
`uci_points = 0` (the default), not 850: because `pcs_points` is
unassigned, the scan enters the PCS branch, 850 fails the [10,500] test,
and the UCI branch - gated on `pcs_points` being already assigned - is
never reached. -/
theorem points_heuristic_counterexample :
    (parse_result_row false
        [⟨"12", [], none⟩, ⟨"Rider A", [], none⟩, ⟨"850", [], none⟩]).uci_points = some 0 ∧
    some (0 : Nat) ≠ some 850 := by
  decide

/-- C7 amended: for an unlabeled positive numeric cell (no `time`/
`uci_pnt`/`pnt` class, no colon) whose value differs from the rank, on a
primary table the scan assigns the value to PCS points only when PCS
points are unassigned and the value is in [10,500]; when PCS points are
unassigned and the value exceeds 500 the cell is ignored entirely; the
value goes to UCI points only when PCS points are already assigned, UCI
points are not, and the value exceeds 500. -/
theorem unlabeled_numeric_cell_priority (r : RowRecord) (c : HtmlCell)
    (hcls : c.classes = [])
    (hnc : strContains c.text ":" = false)
    (hdig : isDigitStr c.text = true)
    (hpos : 0 < strToNat c.text)
    (hnr : r.rank ≠ some (strToNat c.text)) :
    (r.pcs_points = none → 10 ≤ strToNat c.text → strToNat c.text ≤ 500 →
        scan_cell false r c = { r with pcs_points := some (strToNat c.text) }) ∧
    (r.pcs_points = none → 500 < strToNat c.text →
        scan_cell false r c = r) ∧
    (r.pcs_points ≠ none → r.uci_points = none → 500 < strToNat c.text →
        scan_cell false r c = { r with uci_points := some (strToNat c.text) }) := by
  have hc1 : (c.classes.contains "time"
      || (strContains c.text ":" && c.text.data.any Char.isDigit)) = false := by
    simp [hcls, hnc]
  have hc2 : (c.classes.contains "uci_pnt" && isDigitStr c.text
      && decide (0 < strToNat c.text)) = false := by
    simp [hcls]
  have hc3 : (c.classes.contains "pnt" && isDigitStr c.text
      && decide (0 < strToNat c.text)) = false := by
    simp [hcls]
  have hc4 : (isDigitStr c.text && decide (0 < strToNat c.text)) = true := by
    simp [hdig, hpos]
  refine ⟨?_, ?_, ?_⟩
  · intro hp h10 h500
    simp only [scan_cell, hc1, hc2, hc3, hc4, Bool.false_eq_true, if_false, if_true]
    rw [if_pos hnr, if_pos (by simp : (!false) = true), if_pos hp, if_pos ⟨h10, h500⟩]
  · intro hp h500
    simp only [scan_cell, hc1, hc2, hc3, hc4, Bool.false_eq_true, if_false, if_true]
    rw [if_pos hnr, if_pos (by simp : (!false) = true), if_pos hp,
      if_neg (by omega : ¬ (10 ≤ strToNat c.text ∧ strToNat c.text ≤ 500))]
  · intro hp hu h500
    simp only [scan_cell, hc1, hc2, hc3, hc4, Bool.false_eq_true, if_false, if_true]
    rw [if_pos hnr, if_pos (by simp : (!false) = true), if_neg hp, if_pos ⟨hu, h500⟩]

theorem unlabeled_numeric_cell_priority_witness :
    scan_cell false ⟨some 12, some 12, none, none, none, none, none⟩ ⟨"850", [], none⟩ =
      ⟨some 12, some 12, none, none, none, none, none⟩ :=
  (unlabeled_numeric_cell_priority ⟨some 12, some 12, none, none, none, none, none⟩
      ⟨"850", [], none⟩ rfl (by decide) (by decide) (by decide) (by decide)).2.1
    rfl (by decide)

/-- C8 counterexample: the improved parser leaves points null.  For a row
with three cells and a header naming no UCI/PCS column, the extracted
`uci_points` is `None`, not 0 (and the improved parser's row dictionary
never receives a `status` key at all). -/
theorem improved_points_left_null :
    (extract_points_improved (some ["Rnk", "Rider", "Team"]) ["1", "x", "y"] false).1 = none ∧
    (none : Option Nat) ≠ some 0 := by
  decide

/-- C8 amended: the defaults hold for the legacy parser
(`async_scraper.parse_results_table`): every returned row has its
`status`, `uci_points` and `pcs_points` keys present, with `FINISHED`, 0
and 0 exactly when the scan loop assigned nothing; the improved parser,
by contrast, leaves unassigned points `None` and never sets a status. -/
theorem legacy_parser_defaults (secondary : Bool) (cells : List HtmlCell) :
    ((scan_row secondary cells).status = none →
        (parse_result_row secondary cells).status = some "FINISHED") ∧
    ((scan_row secondary cells).uci_points = none →
        (parse_result_row secondary cells).uci_points = some 0) ∧
    ((scan_row secondary cells).pcs_points = none →
        (parse_result_row secondary cells).pcs_points = some 0) ∧
    (parse_result_row secondary cells).status ≠ none ∧
    (parse_result_row secondary cells).uci_points ≠ none ∧
    (parse_result_row secondary cells).pcs_points ≠ none := by
  unfold parse_result_row apply_defaults
  refine ⟨?_, ?_, ?_, by simp, by simp, by simp⟩
  · intro h; simp [h]
  · intro h; simp [h]
  · intro h; simp [h]

theorem legacy_parser_defaults_witness :
    (parse_result_row false
        [⟨"1", [], none⟩, ⟨"aa", [], none⟩, ⟨"bb", [], none⟩]).status = some "FINISHED" :=
  (legacy_parser_defaults false
      [⟨"1", [], none⟩, ⟨"aa", [], none⟩, ⟨"bb", [], none⟩]).1 (by decide)

/-- A parsed result set in which the same rider identity
(`("A", "/rider/a")`) appears twice with different ranks and times, as a
malformed or doubled source table can produce. -/
def dupStageData : StageData :=
  { results :=
      [⟨some "A", some "/rider/a", some "T", some "/team/t", some 1,
        some "FINISHED", some "4:00:00", some 0, some 0, some 25⟩,
       ⟨some "A", some "/rider/a", some "T", some "/team/t", some 2,
        some "FINISHED", some "4:01:00", some 0, some 0, some 25⟩]
    gc := []
    points := []
    kom := []
    youth := [] }

/-- A parsed result set repeating one rider with *identical* fields and a
`None` status - the shape every row of the improved parser has, since it
never sets a status key. -/
def nullStatusStageData : StageData :=
  { results :=
      [⟨some "B", some "/rider/b", some "T", some "/team/t", some 1,
        none, some "4:00:00", some 0, some 0, some 25⟩,
       ⟨some "B", some "/rider/b", some "T", some "/team/t", some 1,
        none, some "4:00:00", some 0, some 0, some 25⟩]
    gc := []
    points := []
    kom := []
    youth := [] }

/-- C1 counterexample: persisting `dupStageData` twice for stage 7 under
the default skip-if-exists configuration stores two rows for the single
(stage, rider identity) key, because the unique index covers
`(stage_id, rider_name, rank, time, status)` - not the rider-identity
key - and the two rows differ in rank and time.  Worse, the index does
not even dedup equal tuples when a key column is NULL (SQLite unique
indexes treat NULLs as pairwise distinct): the two *identical* `None`-
status rows of `nullStatusStageData` are both stored within one persist. -/
theorem save_results_rider_identity_duplicated :
    (save_results_data ⟨false, false⟩ 7 dupStageData
        (save_results_data ⟨false, false⟩ 7 dupStageData [])).countP
      (fun r => r.stage_id == 7 && r.rider_name == some "A"
        && r.rider_url == some "/rider/a") = 2 ∧
    (save_results_data ⟨false, false⟩ 8 nullStatusStageData []).countP
      (fun r => r.stage_id == 8 && r.rider_name == some "B"
        && r.rider_url == some "/rider/b") = 2 ∧
    (2 : Nat) ≠ 1 := by
  decide

/-- Membership in the table is preserved by one `INSERT OR IGNORE`. -/
theorem mem_insert_or_ignore (db : List DBResultRow) (row x : DBResultRow)
    (hx : x ∈ db) : x ∈ insert_or_ignore db row := by
  unfold insert_or_ignore
  split
  · exact hx
  · simp [hx]

/-- Membership in the table is preserved by a run of `INSERT OR IGNORE`s. -/
theorem mem_foldl_insert_or_ignore (rows : List DBResultRow) :
    ∀ (db : List DBResultRow) (x : DBResultRow), x ∈ db →
      x ∈ rows.foldl insert_or_ignore db := by
  induction rows with
  | nil => intro db x hx; exact hx
  | cons rw0 rest ih =>
    intro db x hx
    exact ih (insert_or_ignore db rw0) x (mem_insert_or_ignore db rw0 x hx)

/-- Inserting the rows of a nonempty result list into a table holding no
row of the target stage leaves at least one row of that stage. -/
theorem exists_stage_row_after_insert (stage_id : Nat) (sd : StageData)
    (db : List DBResultRow) (hclean : ∀ r ∈ db, r.stage_id ≠ stage_id)
    (r0 : ParsedResult) (rest : List ParsedResult) (hres : sd.results = r0 :: rest) :
    ∃ x ∈ (sd.results.map (mk_row stage_id sd)).foldl insert_or_ignore db,
      x.stage_id = stage_id := by
  rw [hres]
  refine ⟨mk_row stage_id sd r0, ?_, rfl⟩
  have hnc : insert_or_ignore db (mk_row stage_id sd r0) = db ++ [mk_row stage_id sd r0] := by
    unfold insert_or_ignore
    rw [if_neg]
    intro hany
    simp only [List.any_eq_true] at hany
    obtain ⟨x, hxdb, hxkey⟩ := hany
    simp only [unique_index_conflict, Bool.and_eq_true, beq_iff_eq] at hxkey
    exact hclean x hxdb hxkey.1.1.1.1
  simp only [List.map_cons, List.foldl_cons, hnc]
  exact mem_foldl_insert_or_ignore _ _ _ (by simp)

/-- Pairwise non-conflict of the target stage's rows is preserved by a
run of `INSERT OR IGNORE`s, because each insert is guarded by a conflict
check against the whole table. -/
theorem pairwise_key_foldl_insert (stage_id : Nat) (rows : List DBResultRow) :
    ∀ (db : List DBResultRow),
      ((db.filter (fun r => r.stage_id == stage_id)).Pairwise
        (fun a b => unique_index_conflict a b = false)) →
      (((rows.foldl insert_or_ignore db).filter (fun r => r.stage_id == stage_id)).Pairwise
        (fun a b => unique_index_conflict a b = false)) := by
  induction rows with
  | nil => intro db h; exact h
  | cons rw0 rest ih =>
    intro db h
    apply ih
    unfold insert_or_ignore
    split
    · exact h
    · rename_i hno
      rw [List.filter_append]
      rw [List.pairwise_append]
      refine ⟨h, ?_, ?_⟩
      · rcases Bool.eq_false_or_eq_true (rw0.stage_id == stage_id) with hb | hb
        · simp [List.filter_cons, hb]
        · simp [List.filter_cons, hb]
      · intro a ha b hb
        have hadb : a ∈ db := (List.mem_filter.mp ha).1
        have hbrw : b = rw0 := by
          have := (List.mem_filter.mp hb).1
          simpa using this
        rw [hbrw]
        rcases Bool.eq_false_or_eq_true (unique_index_conflict a rw0) with ht | hf
        · exact absurd (by simp only [List.any_eq_true]; exact ⟨a, hadb, ht⟩) hno
        · exact hf

/-- C1 amended: under the default skip-if-exists configuration,
`save_results_data` is idempotent - the second persist of the same parsed
result set finds rows for the stage and is a no-op - and, starting from a
table with no rows for the stage, no two stored rows of that stage
conflict under the unique index `idx_results_unique` on
`(stage_id, rider_name, rank, time, status)` with SQLite NULL semantics:
at most one row per fully non-NULL realized key tuple.  This is all the
index guarantees - it does not back the (stage, rider identity) key: a
rider identity appearing with two different ranks/times occupies two
rows, and rows with a NULL key column (every improved-parser row has a
NULL status) are never deduplicated at all. -/
theorem save_results_idempotent_key_unique (cfg : SaveConfig)
    (hcfg : cfg.overwrite_existing_data = false ∧ cfg.overwrite_results = false)
    (stage_id : Nat) (sd : StageData) (db : List DBResultRow) :
    save_results_data cfg stage_id sd (save_results_data cfg stage_id sd db) =
      save_results_data cfg stage_id sd db ∧
    ((∀ r ∈ db, r.stage_id ≠ stage_id) →
      ((save_results_data cfg stage_id sd db).filter
          (fun r => r.stage_id == stage_id)).Pairwise
        (fun a b => unique_index_conflict a b = false)) := by
  obtain ⟨hc1, hc2⟩ := hcfg
  have hflag : (!(cfg.overwrite_existing_data || cfg.overwrite_results)) = true := by
    rw [hc1, hc2]; rfl
  constructor
  · by_cases hex : 0 < db.countP (fun r => r.stage_id == stage_id)
    · have h1 : save_results_data cfg stage_id sd db = db := by
        unfold save_results_data
        rw [if_pos hex, if_pos hflag]
      rw [h1]
      unfold save_results_data
      rw [if_pos hex, if_pos hflag]
    · have hclean : ∀ r ∈ db, r.stage_id ≠ stage_id := by
        intro r hr
        have h0 : db.countP (fun r => r.stage_id == stage_id) = 0 := Nat.eq_zero_of_not_pos hex
        have := List.countP_eq_zero.mp h0 r hr
        simpa using this
      rcases hres : sd.results with _ | ⟨r0, rest⟩
      · have hemp : sd.results.isEmpty = true := by rw [hres]; rfl
        have h1 : save_results_data cfg stage_id sd db = db := by
          unfold save_results_data
          rw [if_neg hex, if_pos hemp]
        rw [h1, h1]
      · have hemp : sd.results.isEmpty = false := by rw [hres]; rfl
        have h1 : save_results_data cfg stage_id sd db =
            (sd.results.map (mk_row stage_id sd)).foldl insert_or_ignore db := by
          unfold save_results_data
          rw [if_neg hex, if_neg (by rw [hemp]; exact Bool.false_ne_true)]
        obtain ⟨x, hxmem, hxsid⟩ :=
          exists_stage_row_after_insert stage_id sd db hclean r0 rest hres
        have hex2 : 0 < ((sd.results.map (mk_row stage_id sd)).foldl insert_or_ignore db).countP
            (fun r => r.stage_id == stage_id) := by
          apply List.countP_pos_iff.mpr
          exact ⟨x, hxmem, by simp [hxsid]⟩
        rw [h1]
        unfold save_results_data
        rw [if_pos hex2, if_pos hflag]
  · intro hclean
    have hinit : (db.filter (fun r => r.stage_id == stage_id)).Pairwise
        (fun a b => unique_index_conflict a b = false) := by
      have : db.filter (fun r => r.stage_id == stage_id) = [] := by
        apply List.filter_eq_nil_iff.mpr
        intro r hr
        simp [hclean r hr]
      rw [this]
      exact List.Pairwise.nil
    have hex : ¬ 0 < db.countP (fun r => r.stage_id == stage_id) := by
      intro hpos
      obtain ⟨r, hr, hp⟩ := List.countP_pos_iff.mp hpos
      exact hclean r hr (by simpa using hp)
    unfold save_results_data
    rw [if_neg hex]
    split
    · exact hinit
    · exact pairwise_key_foldl_insert stage_id _ db hinit

theorem save_results_idempotent_key_unique_witness :
    save_results_data ⟨false, false⟩ 7 dupStageData
        (save_results_data ⟨false, false⟩ 7 dupStageData []) =
      save_results_data ⟨false, false⟩ 7 dupStageData [] ∧
    ((save_results_data ⟨false, false⟩ 7 dupStageData []).filter
        (fun r => r.stage_id == 7)).Pairwise
      (fun a b => unique_index_conflict a b = false) :=
  ⟨(save_results_idempotent_key_unique ⟨false, false⟩ ⟨rfl, rfl⟩ 7 dupStageData []).1,
   (save_results_idempotent_key_unique ⟨false, false⟩ ⟨rfl, rfl⟩ 7 dupStageData []).2
     (by simp)⟩

/-- A decimal digit string also passes Python's wider `isdigit` test. -/
theorem isDigitStr_imp_pyStrIsDigit (s : String) :
    isDigitStr s = true → pyStrIsDigit s = true := by
  unfold isDigitStr pyStrIsDigit
  intro h
  simp only [Bool.and_eq_true, List.all_eq_true] at h ⊢
  exact ⟨h.1, fun c hc => by simp [h.2 c hc]⟩

/-- On a row whose first cell is either not digit-class or all-decimal,
the checked row score does not raise and agrees with the pure one. -/
theorem row_score_checked_agrees (classification_type : Option String)
    (cells : List String)
    (h : pyStrIsDigit (cells.headD "") = false
        ∨ (cells.headD "").data.all Char.isDigit = true) :
    row_score_checked classification_type cells
      = some (row_score classification_type cells) := by
  by_cases he : cells.isEmpty
  · simp [row_score_checked, row_score, he]
  · rw [List.headD_eq_head?] at h
    by_cases hq : pyStrIsDigit (cells.head?.getD "")
    · have ha : (cells.head?.getD "").data.all Char.isDigit = true := by
        rcases h with h | h
        · rw [h] at hq
          exact Bool.noConfusion hq
        · exact h
      have hne : (cells.head?.getD "").data.isEmpty = false := by
        have hq' : pyStrIsDigit (cells.head?.getD "") = true := hq
        unfold pyStrIsDigit at hq'
        rcases Bool.eq_false_or_eq_true (cells.head?.getD "").data.isEmpty with hb | hb
        · rw [hb] at hq'
          simp at hq'
        · exact hb
      have hint : int_of_string? (cells.head?.getD "")
          = some (strToNat (cells.head?.getD "")) := by
        simp [int_of_string?, strToNat, hne, ha]
      have hd : isDigitStr (cells.head?.getD "") = true := by
        simp [isDigitStr, hne, ha]
      by_cases hv : strToNat (cells.head?.getD "") ≤ 10
      · simp [row_score_checked, row_score, he, hq, hint, hd, hv]
      · simp [row_score_checked, row_score, he, hq, hint, hd, hv]
    · have hd : isDigitStr (cells.head?.getD "") = false := by
        rcases Bool.eq_false_or_eq_true (isDigitStr (cells.head?.getD "")) with hb | hb
        · exact absurd (isDigitStr_imp_pyStrIsDigit _ hb) hq
        · exact hb
      simp [row_score_checked, row_score, he, hq, hd]

/-- The checked row-score sum does not raise on raise-free rows and
agrees with the pure per-row sum. -/
theorem sum_row_scores_checked_agrees (classification_type : Option String) :
    ∀ (rows : List (List String)),
      (∀ row ∈ rows, pyStrIsDigit (row.headD "") = false
          ∨ (row.headD "").data.all Char.isDigit = true) →
      sum_row_scores_checked classification_type rows
        = some ((rows.map (row_score classification_type)).sum) := by
  intro rows
  induction rows with
  | nil => intro _; rfl
  | cons row rest ih =>
    intro hall
    have h1 := row_score_checked_agrees classification_type row (hall row (by simp))
    have h2 := ih (fun r hr => hall r (by simp [hr]))
    simp only [sum_row_scores_checked, h1, h2, List.map_cons, List.sum_cons]
    rfl

/-- On a table whose sampled first cells are raise-free, the checked
scorer does not raise and agrees with the pure scorer. -/
theorem score_classification_table_checked_agrees (t : ResultsTable)
    (classification_type : Option String)
    (h : ∀ row ∈ (t.trs.drop 1).take 3,
        pyStrIsDigit (row.headD "") = false
        ∨ (row.headD "").data.all Char.isDigit = true) :
    score_classification_table_checked t classification_type
      = some (score_classification_table t classification_type) := by
  unfold score_classification_table_checked score_classification_table
  rw [sum_row_scores_checked_agrees classification_type _ h]

/-- On a raise-free table list the checked confidence scan does not raise
and agrees with the pure scan. -/
theorem find_first_confident_checked_agrees (classification_type : Option String) :
    ∀ (tables : List ResultsTable),
      (∀ t ∈ tables, ∀ row ∈ (t.trs.drop 1).take 3,
          pyStrIsDigit (row.headD "") = false
          ∨ (row.headD "").data.all Char.isDigit = true) →
      find_first_confident_checked classification_type tables
        = Except.ok (find_first_confident classification_type tables) := by
  intro tables
  induction tables with
  | nil => intro _; rfl
  | cons t rest ih =>
    intro hall
    have h1 := score_classification_table_checked_agrees t classification_type
      (hall t (by simp))
    have h2 := ih (fun x hx => hall x (by simp [hx]))
    simp only [find_first_confident_checked, find_first_confident, h1, h2]
    split
    · rfl
    · simp [Except.map]

/-- C4 counterexample: the selector can throw.  On a GC page whose single
results-class table has a data row with first cell the superscript digit
character, `str.isdigit` is true but `int()` raises `ValueError` inside
`_score_classification_table` (line 481, no enclosing try/except), so
`_find_classification_table` propagates the exception instead of
returning a table index, despite a results-class table existing. -/
theorem classification_selector_raises :
    find_classification_table_checked [⟨none, [["Rnk"], ["²", "x", "y"]]⟩] (some "gc")
      = Except.error () ∧
    pyStrIsDigit "²" = true ∧
    int_of_string? "²" = none :=
  ⟨rfl, rfl, rfl⟩

/-- C4 amended: for every nonempty list of results-class tables and every
target classification type, the selector returns a valid in-range table
index - the first confidently scoring table if any, else the positional
fallback, never nothing - provided no sampled data row's first cell is a
digit-class string that `int()` cannot parse; on such a cell (e.g. the
superscript two) the scorer raises `ValueError` and the selector
propagates it.  In particular the selector is total on documents whose
sampled first cells are decimal. -/
theorem find_classification_table_checked_total (tables : List ResultsTable)
    (ctype : Option String) (h : tables ≠ [])
    (hdec : ∀ t ∈ tables, ∀ row ∈ (t.trs.drop 1).take 3,
        pyStrIsDigit (row.headD "") = false
        ∨ (row.headD "").data.all Char.isDigit = true) :
    ∃ i, find_classification_table_checked tables ctype = Except.ok (some i) ∧
      i < tables.length := by
  have hagree := find_first_confident_checked_agrees ctype tables hdec
  obtain ⟨i, hi, hlt⟩ := find_classification_table_total tables ctype h
  refine ⟨i, ?_, hlt⟩
  unfold find_classification_table_checked
  rw [hagree]
  unfold find_classification_table_idx at hi
  cases hf : find_first_confident ctype tables with
  | some j =>
    rw [hf] at hi
    exact congrArg Except.ok hi
  | none =>
    rw [hf] at hi
    exact congrArg Except.ok hi

theorem find_classification_table_checked_total_witness :
    ∃ i, find_classification_table_checked [⟨none, [["Rnk"], ["1", "x", "y"]]⟩] (some "gc")
        = Except.ok (some i) ∧
      i < [(⟨none, [["Rnk"], ["1", "x", "y"]]⟩ : ResultsTable)].length :=
  find_classification_table_checked_total [⟨none, [["Rnk"], ["1", "x", "y"]]⟩]
    (some "gc") (by decide) (by decide)
